import Mathlib

/-!
Verification of the image-normalization pipeline of the macu-rate web
application (src/main.go): EXIF-orientation correction, aspect-preserving
fit-within scaling with a no-upscale policy, JPEG re-encoding at quality 80,
and the pass-through storage policy of the admin upload handler.

Modelling conventions:
* Pixel buffers (Go image.Image / image.RGBA values) become the structure
  Img: a width, a height and a total pixel-lookup function on zero-based
  coordinates.  The Go transforms read source pixels only through relative
  coordinates of the bounds, so zero-based buffers are faithful.
* Go float64 arithmetic inside fitWithin is modelled by exact rational
  arithmetic over ℚ; the Go conversion int(x) (truncation toward zero) is
  modelled by truncQ.
* The external image codecs used by main.go (image.DecodeConfig,
  image.Decode, jpeg.Encode, the goexif tag lookup, and the
  draw.ApproxBiLinear resampling kernel) are not part of this repository;
  they appear as the abstract fields of an ImageEnv record, and theorems
  quantify over them.
* The people table touched by adminAddHandler is a list of (name, image)
  rows; a successful INSERT appends a row.  Database failures are outside
  the modelled claims, so the store itself is modelled as reliable.
-/

/-- A pixel buffer: width, height, and the pixel at each zero-based
coordinate pair.  Pixel values are abstract naturals; only lookups with
x lower than w and y lower than h are meaningful. -/
structure Img where
  w : Nat
  h : Nat
  pix : Nat → Nat → Nat

/-- Two pixel buffers are equivalent when they have the same dimensions and
agree on every in-bounds pixel. -/
def Img.Equiv (a b : Img) : Prop :=
  a.w = b.w ∧ a.h = b.h ∧ ∀ x y, x < a.w → y < a.h → a.pix x y = b.pix x y

/-- flipHorizontal from src/main.go: the destination pixel at
(w-1-x, y) is the source pixel at (x, y). -/
def flipHorizontal (src : Img) : Img :=
  ⟨src.w, src.h, fun x y => src.pix (src.w - 1 - x) y⟩

/-- flipVertical from src/main.go: the destination pixel at
(x, h-1-y) is the source pixel at (x, y). -/
def flipVertical (src : Img) : Img :=
  ⟨src.w, src.h, fun x y => src.pix x (src.h - 1 - y)⟩

/-- rotate90CW from src/main.go: the destination buffer is h wide and w
high; the destination pixel at (h-1-y, x) is the source pixel at (x, y). -/
def rotate90CW (src : Img) : Img :=
  ⟨src.h, src.w, fun x y => src.pix y (src.h - 1 - x)⟩

/-- rotate270CW from src/main.go: the destination buffer is h wide and w
high; the destination pixel at (y, w-1-x) is the source pixel at (x, y). -/
def rotate270CW (src : Img) : Img :=
  ⟨src.h, src.w, fun x y => src.pix (src.w - 1 - y) x⟩

/-- rotate180 from src/main.go, defined there as two 90° rotations. -/
def rotate180 (src : Img) : Img :=
  rotate90CW (rotate90CW src)

/-- applyEXIFOrientation from src/main.go: the eight-case dispatch on the
EXIF orientation code; any other code returns the image unchanged. -/
def applyEXIFOrientation (img : Img) (o : Int) : Img :=
  if o = 1 then img
  else if o = 2 then flipHorizontal img
  else if o = 3 then rotate180 img
  else if o = 4 then flipVertical img
  else if o = 5 then rotate90CW (flipHorizontal img)
  else if o = 6 then rotate90CW img
  else if o = 7 then rotate270CW (flipHorizontal img)
  else if o = 8 then rotate270CW img
  else img

/-- The inverse transform of each orientation code: the transform that
undoes applyEXIFOrientation for that code (the mirror primitives are their
own inverses, and the 90° and 270° rotations invert each other). -/
def invEXIFOrientation (img : Img) (o : Int) : Img :=
  if o = 1 then img
  else if o = 2 then flipHorizontal img
  else if o = 3 then rotate180 img
  else if o = 4 then flipVertical img
  else if o = 5 then flipHorizontal (rotate270CW img)
  else if o = 6 then rotate270CW img
  else if o = 7 then flipHorizontal (rotate90CW img)
  else if o = 8 then rotate90CW img
  else img

/-- Truncation of a rational toward zero, as the Go conversion int(x)
applied to a float64 value. -/
def truncQ (q : ℚ) : Int :=
  if 0 ≤ q then ⌊q⌋ else ⌈q⌉

/-- The uniform scale chosen by fitWithin in src/main.go: the smaller of
maxW/w and maxH/h, computed there in float64 and modelled here in ℚ. -/
def scaleOf (w h maxW maxH : Int) : ℚ :=
  if (maxH : ℚ) / (h : ℚ) < (maxW : ℚ) / (w : ℚ) then (maxH : ℚ) / (h : ℚ)
  else (maxW : ℚ) / (w : ℚ)

/-- fitWithin from src/main.go: non-positive source dimensions return the
bounding box itself; a scale above one returns the source dimensions
unchanged (no upscaling); otherwise both dimensions are multiplied by the
uniform scale and truncated to integers. -/
def fitWithin (w h maxW maxH : Int) : Int × Int :=
  if w ≤ 0 ∨ h ≤ 0 then (maxW, maxH)
  else if 1 < scaleOf w h maxW maxH then (w, h)
  else (truncQ ((w : ℚ) * scaleOf w h maxW maxH), truncQ ((h : ℚ) * scaleOf w h maxW maxH))

/-- The orientation value resolved by processJPEGForDB in src/main.go: the
argument is some v when the EXIF decode, the tag lookup and the integer
read all succeed with value v, and none when any of them fails; the
resolved orientation defaults to 1 unless a value inside [1,8] was read. -/
def resolveOrientation (tagValue : Option Int) : Int :=
  match tagValue with
  | none => 1
  | some v => if 1 ≤ v ∧ v ≤ 8 then v else 1

/-- The external image collaborators of src/main.go, abstracted: format
sniffing (image.DecodeConfig, none on error), full decode (image.Decode,
none on error), JPEG encoding at a given quality (jpeg.Encode, none on
error), the EXIF orientation tag chain (none on any failure), and the
resampling kernel used by draw.ApproxBiLinear.Scale, giving the pixel of
the destination buffer of a given size at a given coordinate. -/
structure ImageEnv where
  sniffFormat : List Nat → Option String
  decode : List Nat → Option Img
  encodeJPEG : Nat → Img → Option (List Nat)
  exifOrientation : List Nat → Option Int
  resample : Img → Nat → Nat → Nat → Nat → Nat

/-- The destination buffer of draw.ApproxBiLinear.Scale in processJPEGForDB:
a fresh buffer of the requested size (image.Rect canonicalizes a negative
extent to its absolute value) whose pixels come from the environment's
resampling kernel. -/
def scaleImage (env : ImageEnv) (dstW dstH : Int) (src : Img) : Img :=
  ⟨dstW.natAbs, dstH.natAbs, env.resample src dstW.natAbs dstH.natAbs⟩

/-- The image produced by the orientation step of processJPEGForDB. -/
def orientedOf (env : ImageEnv) (srcBytes : List Nat) (srcImg : Img) : Img :=
  applyEXIFOrientation srcImg (resolveOrientation (env.exifOrientation srcBytes))

/-- The oriented image scaled to the dimensions chosen by fitWithin, as in
processJPEGForDB. -/
def scaledOf (env : ImageEnv) (srcBytes : List Nat) (srcImg : Img) (maxW maxH : Int) : Img :=
  scaleImage env
    (fitWithin ((orientedOf env srcBytes srcImg).w : Int)
      ((orientedOf env srcBytes srcImg).h : Int) maxW maxH).1
    (fitWithin ((orientedOf env srcBytes srcImg).w : Int)
      ((orientedOf env srcBytes srcImg).h : Int) maxW maxH).2
    (orientedOf env srcBytes srcImg)

/-- The failure cases of processJPEGForDB: image.Decode failing, or
jpeg.Encode failing. -/
inductive ProcErr where
  | decodeFailed
  | encodeFailed
deriving DecidableEq

/-- processJPEGForDB from src/main.go: resolve the EXIF orientation (with
silent fallback to 1), decode the source bytes (failure is an error),
apply the orientation, scale to the fitWithin dimensions, and encode as
JPEG at quality 80 (failure is an error). -/
def processJPEGForDB (env : ImageEnv) (srcBytes : List Nat) (maxW maxH : Int) :
    Except ProcErr (List Nat) :=
  match env.decode srcBytes with
  | none => .error .decodeFailed
  | some srcImg =>
    match env.encodeJPEG 80 (scaledOf env srcBytes srcImg maxW maxH) with
    | none => .error .encodeFailed
    | some out => .ok out

/-- The HTTP outcome of the storage portion of adminAddHandler: a redirect
to the home page on success, or a 500 error carrying the processing
failure. -/
inductive Response where
  | redirectHome
  | serverError (e : ProcErr)
deriving DecidableEq

/-- The format tag of the photographic class in src/main.go. -/
def jpegTag : String := "jpeg"

/-- The alternate spelling of the photographic format tag checked by
adminAddHandler. -/
def jpgTag : String := "jpg"

/-- The storage logic of adminAddHandler in src/main.go, from the point
where the upload bytes have been read (method, password and multipart
handling precede it and are independent of the stored bytes): sniff the
format; on sniff failure store the bytes as uploaded; on a jpeg/jpg format
run processJPEGForDB with a 512 by 512 box and either store its output or
fail the request with a 500 without storing; on any other format store the
bytes as uploaded. -/
def adminAddHandler (env : ImageEnv) (people : List (String × List Nat))
    (name : String) (imgBytes : List Nat) : List (String × List Nat) × Response :=
  match env.sniffFormat imgBytes with
  | none => (people ++ [(name, imgBytes)], .redirectHome)
  | some format =>
    if format = jpegTag ∨ format = jpgTag then
      match processJPEGForDB env imgBytes 512 512 with
      | .error e => (people, .serverError e)
      | .ok processed => (people ++ [(name, processed)], .redirectHome)
    else
      (people ++ [(name, imgBytes)], .redirectHome)

/-- Modelled from the spec: the orientation table of section 4.2, with each
row stated as the spec words it — the destination pixel at the transformed
coordinate equals the source pixel at the original coordinate.  Mirror
horizontally sends (x, y) to (w-1-x, y). -/
def IsMirrorH (src dst : Img) : Prop :=
  dst.w = src.w ∧ dst.h = src.h ∧
    ∀ x y, x < src.w → y < src.h → dst.pix (src.w - 1 - x) y = src.pix x y

/-- Modelled from the spec: mirror vertically sends (x, y) to (x, h-1-y). -/
def IsMirrorV (src dst : Img) : Prop :=
  dst.w = src.w ∧ dst.h = src.h ∧
    ∀ x y, x < src.w → y < src.h → dst.pix x (src.h - 1 - y) = src.pix x y

/-- Modelled from the spec: rotation by 90° clockwise swaps the buffer
dimensions and sends (x, y) to (h-1-y, x). -/
def IsRotate90CW (src dst : Img) : Prop :=
  dst.w = src.h ∧ dst.h = src.w ∧
    ∀ x y, x < src.w → y < src.h → dst.pix (src.h - 1 - y) x = src.pix x y

/-- Modelled from the spec: rotation by 270° clockwise swaps the buffer
dimensions and sends (x, y) to (y, w-1-x). -/
def IsRotate270CW (src dst : Img) : Prop :=
  dst.w = src.h ∧ dst.h = src.w ∧
    ∀ x y, x < src.w → y < src.h → dst.pix y (src.w - 1 - x) = src.pix x y

/-- Modelled from the spec: rotation by 180° keeps the dimensions and sends
(x, y) to (w-1-x, h-1-y). -/
def IsRotate180 (src dst : Img) : Prop :=
  dst.w = src.w ∧ dst.h = src.h ∧
    ∀ x y, x < src.w → y < src.h → dst.pix (src.w - 1 - x) (src.h - 1 - y) = src.pix x y

/-- Modelled from the spec: the full eight-row orientation table of section
4.2; rows 5 and 7 apply the mirror first and the rotation second. -/
def OrientSpec (o : Int) (src dst : Img) : Prop :=
  if o = 1 then dst = src
  else if o = 2 then IsMirrorH src dst
  else if o = 3 then IsRotate180 src dst
  else if o = 4 then IsMirrorV src dst
  else if o = 5 then ∃ mid, IsMirrorH src mid ∧ IsRotate90CW mid dst
  else if o = 6 then IsRotate90CW src dst
  else if o = 7 then ∃ mid, IsMirrorH src mid ∧ IsRotate270CW mid dst
  else if o = 8 then IsRotate270CW src dst
  else dst = src

/-- A small asymmetric test buffer used by the concrete instantiations. -/
def testImg : Img :=
  ⟨3, 2, fun x y => 10 * y + x⟩

/-- A 4000 by 3000 test buffer for the orientation-6 scenario. -/
def img4000x3000 : Img :=
  ⟨4000, 3000, fun x y => 4000 * y + x⟩

/-- A concrete environment for the orientation-6 scenario: every upload
sniffs as jpeg, decodes to the 4000 by 3000 buffer with EXIF orientation 6,
and the encoder records the quality and the pixel dimensions it was given. -/
def scenarioEnv : ImageEnv :=
  ⟨fun _ => some jpegTag,
   fun _ => some img4000x3000,
   fun q img => some [q, img.w, img.h],
   fun _ => some 6,
   fun src dw dh x y => src.pix (x * src.w / dw) (y * src.h / dh)⟩

/-- A concrete environment whose sniffer reports a non-photographic format. -/
def pngEnv : ImageEnv :=
  ⟨fun _ => some "png",
   fun _ => none,
   fun _ _ => none,
   fun _ => none,
   fun _ _ _ _ _ => 0⟩

/-- A concrete environment that sniffs jpeg but whose full decode fails. -/
def badDecodeEnv : ImageEnv :=
  ⟨fun _ => some jpegTag,
   fun _ => none,
   fun _ _ => none,
   fun _ => none,
   fun _ _ _ _ _ => 0⟩

/-- A concrete non-empty people table for the handler instantiations. -/
def somePeople : List (String × List Nat) :=
  [("ada", [1, 2, 3])]

section TruncLemmas

lemma truncQ_intCast (n : ℤ) : truncQ (n : ℚ) = n := by
  unfold truncQ
  split_ifs with h0
  · exact Int.floor_intCast n
  · exact Int.ceil_intCast n

lemma truncQ_le {q : ℚ} {n : ℤ} (hq : q ≤ (n : ℚ)) : truncQ q ≤ n := by
  unfold truncQ
  split_ifs with h0
  · have := Int.floor_le_floor hq
    rwa [Int.floor_intCast] at this
  · have := Int.ceil_le_ceil hq
    rwa [Int.ceil_intCast] at this

lemma abs_truncQ_sub_lt (q : ℚ) : |((truncQ q : ℤ) : ℚ) - q| < 1 := by
  unfold truncQ
  split_ifs with h0
  · rw [abs_sub_lt_iff]
    constructor
    · have := Int.floor_le q
      linarith
    · have := Int.lt_floor_add_one q
      linarith
  · rw [abs_sub_lt_iff]
    constructor
    · have := Int.ceil_lt_add_one q
      linarith
    · have := Int.le_ceil q
      linarith

end TruncLemmas

/-- C1: for strictly positive source dimensions that already fit inside the
bounding box (so the uniform scale is at least 1, including the boundary
case of scale exactly 1), fitWithin returns the source dimensions
unchanged — the no-upscale law. -/
theorem fitWithin_no_upscale (w h maxW maxH : Int)
    (hw : 0 < w) (hh : 0 < h) (hwm : w ≤ maxW) (hhm : h ≤ maxH) :
    fitWithin w h maxW maxH = (w, h) := by
  have hw0 : (0 : ℚ) < (w : ℚ) := by exact_mod_cast hw
  have hh0 : (0 : ℚ) < (h : ℚ) := by exact_mod_cast hh
  have hrw : (1 : ℚ) ≤ (maxW : ℚ) / (w : ℚ) := by
    rw [le_div_iff₀ hw0, one_mul]
    exact_mod_cast hwm
  have hrh : (1 : ℚ) ≤ (maxH : ℚ) / (h : ℚ) := by
    rw [le_div_iff₀ hh0, one_mul]
    exact_mod_cast hhm
  have hs1 : 1 ≤ scaleOf w h maxW maxH := by
    unfold scaleOf
    split_ifs <;> assumption
  unfold fitWithin
  rw [if_neg (by push_neg; omega)]
  by_cases hlt : 1 < scaleOf w h maxW maxH
  · rw [if_pos hlt]
  · rw [if_neg hlt]
    have hseq : scaleOf w h maxW maxH = 1 := le_antisymm (not_lt.mp hlt) hs1
    rw [hseq, mul_one, mul_one, truncQ_intCast, truncQ_intCast]

/-- Witness for C1 at the concrete input (3, 2) inside a (5, 7) box. -/
theorem fitWithin_no_upscale_witness :
    (0 : Int) < 3 ∧ (0 : Int) < 2 ∧ (3 : Int) ≤ 5 ∧ (2 : Int) ≤ 7 ∧
      fitWithin 3 2 5 7 = (3, 2) :=
  ⟨by decide, by decide, by decide, by decide,
    fitWithin_no_upscale 3 2 5 7 (by decide) (by decide) (by decide) (by decide)⟩

/-- C9: for a non-positive source width or height, fitWithin degrades to
returning the bounding box itself, for every bounding box. -/
theorem fitWithin_nonpositive_degrades (w h maxW maxH : Int)
    (h0 : w ≤ 0 ∨ h ≤ 0) :
    fitWithin w h maxW maxH = (maxW, maxH) := by
  unfold fitWithin
  rw [if_pos h0]

/-- Witness for C9 at the concrete input (0, 5) inside a (7, 9) box. -/
theorem fitWithin_nonpositive_degrades_witness :
    ((0 : Int) ≤ 0 ∨ (5 : Int) ≤ 0) ∧ fitWithin 0 5 7 9 = (7, 9) :=
  ⟨Or.inl (by decide), fitWithin_nonpositive_degrades 0 5 7 9 (Or.inl (by decide))⟩

/-- C10: strictly positive source dimensions with an extreme aspect ratio
can scale to a zero destination width: a 1 by 1000 source in a 512 by 512
box returns width 0 (and height 512), so normalized dimensions are not
guaranteed strictly positive. -/
theorem fitWithin_extreme_aspect_zero_width :
    (0 : Int) < 1 ∧ (0 : Int) < 1000 ∧ fitWithin 1 1000 512 512 = (0, 512) := by
  refine ⟨by decide, by decide, ?_⟩
  unfold fitWithin scaleOf truncQ
  norm_num [Int.floor_eq_iff]

lemma scaleOf_le_ratioW (w h maxW maxH : Int) :
    scaleOf w h maxW maxH ≤ (maxW : ℚ) / (w : ℚ) := by
  unfold scaleOf
  split_ifs with hc
  · exact hc.le
  · exact le_rfl

lemma scaleOf_le_ratioH (w h maxW maxH : Int) :
    scaleOf w h maxW maxH ≤ (maxH : ℚ) / (h : ℚ) := by
  unfold scaleOf
  split_ifs with hc
  · exact le_rfl
  · exact not_lt.mp hc

/-- C2: for strictly positive source dimensions with a uniform scale below
1, fitWithin returns exactly the truncations (not roundings) of scale
times w and scale times h; both results fit inside the bounding box, and
each destination dimension is within one pixel of the exact scaled value,
so the source aspect ratio is preserved up to one pixel's rounding error
per axis. -/
theorem fitWithin_downscale_bounds (w h maxW maxH : Int)
    (hw : 0 < w) (hh : 0 < h) (hs : scaleOf w h maxW maxH < 1) :
    fitWithin w h maxW maxH =
      (truncQ ((w : ℚ) * scaleOf w h maxW maxH),
        truncQ ((h : ℚ) * scaleOf w h maxW maxH)) ∧
    (fitWithin w h maxW maxH).1 ≤ maxW ∧
    (fitWithin w h maxW maxH).2 ≤ maxH ∧
    |(((fitWithin w h maxW maxH).1 : ℤ) : ℚ) - (w : ℚ) * scaleOf w h maxW maxH| < 1 ∧
    |(((fitWithin w h maxW maxH).2 : ℤ) : ℚ) - (h : ℚ) * scaleOf w h maxW maxH| < 1 := by
  have hw0 : (0 : ℚ) < (w : ℚ) := by exact_mod_cast hw
  have hh0 : (0 : ℚ) < (h : ℚ) := by exact_mod_cast hh
  have heq : fitWithin w h maxW maxH =
      (truncQ ((w : ℚ) * scaleOf w h maxW maxH),
        truncQ ((h : ℚ) * scaleOf w h maxW maxH)) := by
    unfold fitWithin
    rw [if_neg (by push_neg; omega), if_neg (not_lt.mpr hs.le)]
  have hWle : (w : ℚ) * scaleOf w h maxW maxH ≤ (maxW : ℚ) := by
    have h1 : (w : ℚ) * scaleOf w h maxW maxH ≤ (w : ℚ) * ((maxW : ℚ) / (w : ℚ)) :=
      mul_le_mul_of_nonneg_left (scaleOf_le_ratioW w h maxW maxH) hw0.le
    have h2 : (w : ℚ) * ((maxW : ℚ) / (w : ℚ)) = (maxW : ℚ) := by
      field_simp
    linarith
  have hHle : (h : ℚ) * scaleOf w h maxW maxH ≤ (maxH : ℚ) := by
    have h1 : (h : ℚ) * scaleOf w h maxW maxH ≤ (h : ℚ) * ((maxH : ℚ) / (h : ℚ)) :=
      mul_le_mul_of_nonneg_left (scaleOf_le_ratioH w h maxW maxH) hh0.le
    have h2 : (h : ℚ) * ((maxH : ℚ) / (h : ℚ)) = (maxH : ℚ) := by
      field_simp
    linarith
  refine ⟨heq, ?_, ?_, ?_, ?_⟩
  · rw [heq]
    exact truncQ_le hWle
  · rw [heq]
    exact truncQ_le hHle
  · rw [heq]
    exact abs_truncQ_sub_lt ((w : ℚ) * scaleOf w h maxW maxH)
  · rw [heq]
    exact abs_truncQ_sub_lt ((h : ℚ) * scaleOf w h maxW maxH)

/-- Witness for C2 at the concrete input (200, 300) inside a (100, 80)
box, where the uniform scale is 80/300. -/
theorem fitWithin_downscale_bounds_witness :
    (0 : Int) < 200 ∧ (0 : Int) < 300 ∧ scaleOf 200 300 100 80 < 1 ∧
    (fitWithin 200 300 100 80 =
      (truncQ ((200 : ℚ) * scaleOf 200 300 100 80),
        truncQ ((300 : ℚ) * scaleOf 200 300 100 80)) ∧
    (fitWithin 200 300 100 80).1 ≤ 100 ∧
    (fitWithin 200 300 100 80).2 ≤ 80 ∧
    |(((fitWithin 200 300 100 80).1 : ℤ) : ℚ) - (200 : ℚ) * scaleOf 200 300 100 80| < 1 ∧
    |(((fitWithin 200 300 100 80).2 : ℤ) : ℚ) - (300 : ℚ) * scaleOf 200 300 100 80| < 1) := by
  have hs : scaleOf 200 300 100 80 < 1 := by
    unfold scaleOf
    norm_num
  exact ⟨by decide, by decide, hs,
    fitWithin_downscale_bounds 200 300 100 80 (by decide) (by decide) hs⟩

lemma isMirrorH_flipHorizontal (src : Img) : IsMirrorH src (flipHorizontal src) := by
  refine ⟨rfl, rfl, fun x y hx hy => ?_⟩
  show src.pix (src.w - 1 - (src.w - 1 - x)) y = src.pix x y
  have e : src.w - 1 - (src.w - 1 - x) = x := by omega
  rw [e]

lemma isMirrorV_flipVertical (src : Img) : IsMirrorV src (flipVertical src) := by
  refine ⟨rfl, rfl, fun x y hx hy => ?_⟩
  show src.pix x (src.h - 1 - (src.h - 1 - y)) = src.pix x y
  have e : src.h - 1 - (src.h - 1 - y) = y := by omega
  rw [e]

lemma isRotate90CW_rotate90CW (src : Img) : IsRotate90CW src (rotate90CW src) := by
  refine ⟨rfl, rfl, fun x y hx hy => ?_⟩
  show src.pix x (src.h - 1 - (src.h - 1 - y)) = src.pix x y
  have e : src.h - 1 - (src.h - 1 - y) = y := by omega
  rw [e]

lemma isRotate270CW_rotate270CW (src : Img) : IsRotate270CW src (rotate270CW src) := by
  refine ⟨rfl, rfl, fun x y hx hy => ?_⟩
  show src.pix (src.w - 1 - (src.w - 1 - x)) y = src.pix x y
  have e : src.w - 1 - (src.w - 1 - x) = x := by omega
  rw [e]

lemma isRotate180_rotate180 (src : Img) : IsRotate180 src (rotate180 src) := by
  refine ⟨rfl, rfl, fun x y hx hy => ?_⟩
  show src.pix (src.w - 1 - (src.w - 1 - x)) (src.h - 1 - (src.h - 1 - y)) = src.pix x y
  have e1 : src.w - 1 - (src.w - 1 - x) = x := by omega
  have e2 : src.h - 1 - (src.h - 1 - y) = y := by omega
  rw [e1, e2]

/-- C3: for every orientation code in [1,8], applyEXIFOrientation performs
exactly the transform of the spec's eight-case table, stated as the
explicit pixel remap OrientSpec (with the mirror applied first in the
two-step cases 5 and 7), and the four cases involving a 90° or 270°
rotation swap the width and the height of the working buffer. -/
theorem applyEXIFOrientation_matches_spec_table (img : Img) (o : Int)
    (h1 : 1 ≤ o) (h8 : o ≤ 8) :
    OrientSpec o img (applyEXIFOrientation img o) ∧
    ((o = 5 ∨ o = 6 ∨ o = 7 ∨ o = 8) →
      (applyEXIFOrientation img o).w = img.h ∧ (applyEXIFOrientation img o).h = img.w) := by
  interval_cases o
  · exact ⟨by simp [OrientSpec, applyEXIFOrientation], fun hc => absurd hc (by decide)⟩
  · exact ⟨by simpa [OrientSpec, applyEXIFOrientation] using isMirrorH_flipHorizontal img,
      fun hc => absurd hc (by decide)⟩
  · exact ⟨by simpa [OrientSpec, applyEXIFOrientation] using isRotate180_rotate180 img,
      fun hc => absurd hc (by decide)⟩
  · exact ⟨by simpa [OrientSpec, applyEXIFOrientation] using isMirrorV_flipVertical img,
      fun hc => absurd hc (by decide)⟩
  · refine ⟨?_, fun _ => ⟨rfl, rfl⟩⟩
    simp only [OrientSpec, applyEXIFOrientation]
    norm_num
    exact ⟨flipHorizontal img, isMirrorH_flipHorizontal img,
      isRotate90CW_rotate90CW (flipHorizontal img)⟩
  · exact ⟨by simpa [OrientSpec, applyEXIFOrientation] using isRotate90CW_rotate90CW img,
      fun _ => ⟨rfl, rfl⟩⟩
  · refine ⟨?_, fun _ => ⟨rfl, rfl⟩⟩
    simp only [OrientSpec, applyEXIFOrientation]
    norm_num
    exact ⟨flipHorizontal img, isMirrorH_flipHorizontal img,
      isRotate270CW_rotate270CW (flipHorizontal img)⟩
  · exact ⟨by simpa [OrientSpec, applyEXIFOrientation] using isRotate270CW_rotate270CW img,
      fun _ => ⟨rfl, rfl⟩⟩

/-- Witness for C3 at orientation 6 and the concrete asymmetric test
buffer. -/
theorem applyEXIFOrientation_matches_spec_table_witness :
    (1 : Int) ≤ 6 ∧ (6 : Int) ≤ 8 ∧
    (OrientSpec 6 testImg (applyEXIFOrientation testImg 6) ∧
      (((6 : Int) = 5 ∨ (6 : Int) = 6 ∨ (6 : Int) = 7 ∨ (6 : Int) = 8) →
        (applyEXIFOrientation testImg 6).w = testImg.h ∧
        (applyEXIFOrientation testImg 6).h = testImg.w)) :=
  ⟨by decide, by decide,
    applyEXIFOrientation_matches_spec_table testImg 6 (by decide) (by decide)⟩

lemma equiv_flipHorizontal_flipHorizontal (img : Img) :
    Img.Equiv (flipHorizontal (flipHorizontal img)) img := by
  refine ⟨rfl, rfl, fun x y hx hy => ?_⟩
  show img.pix (img.w - 1 - (img.w - 1 - x)) y = img.pix x y
  have hx' : x < img.w := hx
  have e : img.w - 1 - (img.w - 1 - x) = x := by omega
  rw [e]

lemma equiv_flipVertical_flipVertical (img : Img) :
    Img.Equiv (flipVertical (flipVertical img)) img := by
  refine ⟨rfl, rfl, fun x y hx hy => ?_⟩
  show img.pix x (img.h - 1 - (img.h - 1 - y)) = img.pix x y
  have hy' : y < img.h := hy
  have e : img.h - 1 - (img.h - 1 - y) = y := by omega
  rw [e]

lemma equiv_rotate270CW_rotate90CW (img : Img) :
    Img.Equiv (rotate270CW (rotate90CW img)) img := by
  refine ⟨rfl, rfl, fun x y hx hy => ?_⟩
  show img.pix x (img.h - 1 - (img.h - 1 - y)) = img.pix x y
  have hy' : y < img.h := hy
  have e : img.h - 1 - (img.h - 1 - y) = y := by omega
  rw [e]

lemma equiv_rotate90CW_rotate270CW (img : Img) :
    Img.Equiv (rotate90CW (rotate270CW img)) img := by
  refine ⟨rfl, rfl, fun x y hx hy => ?_⟩
  show img.pix (img.w - 1 - (img.w - 1 - x)) y = img.pix x y
  have hx' : x < img.w := hx
  have e : img.w - 1 - (img.w - 1 - x) = x := by omega
  rw [e]

lemma equiv_rotate180_rotate180 (img : Img) :
    Img.Equiv (rotate180 (rotate180 img)) img := by
  refine ⟨rfl, rfl, fun x y hx hy => ?_⟩
  show img.pix (img.w - 1 - (img.w - 1 - x)) (img.h - 1 - (img.h - 1 - y)) = img.pix x y
  have hx' : x < img.w := hx
  have hy' : y < img.h := hy
  have e1 : img.w - 1 - (img.w - 1 - x) = x := by omega
  have e2 : img.h - 1 - (img.h - 1 - y) = y := by omega
  rw [e1, e2]

lemma equiv_inv_apply_5 (img : Img) :
    Img.Equiv (flipHorizontal (rotate270CW (rotate90CW (flipHorizontal img)))) img := by
  refine ⟨rfl, rfl, fun x y hx hy => ?_⟩
  show img.pix (img.w - 1 - (img.w - 1 - x)) (img.h - 1 - (img.h - 1 - y)) = img.pix x y
  have hx' : x < img.w := hx
  have hy' : y < img.h := hy
  have e1 : img.w - 1 - (img.w - 1 - x) = x := by omega
  have e2 : img.h - 1 - (img.h - 1 - y) = y := by omega
  rw [e1, e2]

lemma equiv_inv_apply_7 (img : Img) :
    Img.Equiv (flipHorizontal (rotate90CW (rotate270CW (flipHorizontal img)))) img := by
  refine ⟨rfl, rfl, fun x y hx hy => ?_⟩
  show img.pix (img.w - 1 - (img.w - 1 - (img.w - 1 - (img.w - 1 - x)))) y = img.pix x y
  have hx' : x < img.w := hx
  have e : img.w - 1 - (img.w - 1 - (img.w - 1 - (img.w - 1 - x))) = x := by omega
  rw [e]

/-- C7: applying an orientation transform and then its inverse reproduces
the original pixel buffer exactly, for every buffer and every orientation
code in [1,8]; in particular both mirrors are involutions, the 90° and
270° rotations invert each other, and the 180° rotation composed with
itself is the identity. -/
theorem orientation_roundtrip (img : Img) (o : Int) (h1 : 1 ≤ o) (h8 : o ≤ 8) :
    Img.Equiv (flipHorizontal (flipHorizontal img)) img ∧
    Img.Equiv (flipVertical (flipVertical img)) img ∧
    Img.Equiv (rotate270CW (rotate90CW img)) img ∧
    Img.Equiv (rotate90CW (rotate270CW img)) img ∧
    Img.Equiv (rotate180 (rotate180 img)) img ∧
    Img.Equiv (invEXIFOrientation (applyEXIFOrientation img o) o) img := by
  refine ⟨equiv_flipHorizontal_flipHorizontal img, equiv_flipVertical_flipVertical img,
    equiv_rotate270CW_rotate90CW img, equiv_rotate90CW_rotate270CW img,
    equiv_rotate180_rotate180 img, ?_⟩
  interval_cases o
  · exact ⟨rfl, rfl, fun x y hx hy => rfl⟩
  · simpa [applyEXIFOrientation, invEXIFOrientation] using
      equiv_flipHorizontal_flipHorizontal img
  · simpa [applyEXIFOrientation, invEXIFOrientation] using
      equiv_rotate180_rotate180 img
  · simpa [applyEXIFOrientation, invEXIFOrientation] using
      equiv_flipVertical_flipVertical img
  · simpa [applyEXIFOrientation, invEXIFOrientation] using equiv_inv_apply_5 img
  · simpa [applyEXIFOrientation, invEXIFOrientation] using
      equiv_rotate270CW_rotate90CW img
  · simpa [applyEXIFOrientation, invEXIFOrientation] using equiv_inv_apply_7 img
  · simpa [applyEXIFOrientation, invEXIFOrientation] using
      equiv_rotate90CW_rotate270CW img

/-- Witness for C7 at orientation 6 and the concrete asymmetric test
buffer. -/
theorem orientation_roundtrip_witness :
    (1 : Int) ≤ 6 ∧ (6 : Int) ≤ 8 ∧
    (Img.Equiv (flipHorizontal (flipHorizontal testImg)) testImg ∧
      Img.Equiv (flipVertical (flipVertical testImg)) testImg ∧
      Img.Equiv (rotate270CW (rotate90CW testImg)) testImg ∧
      Img.Equiv (rotate90CW (rotate270CW testImg)) testImg ∧
      Img.Equiv (rotate180 (rotate180 testImg)) testImg ∧
      Img.Equiv (invEXIFOrientation (applyEXIFOrientation testImg 6) 6) testImg) :=
  ⟨by decide, by decide, orientation_roundtrip testImg 6 (by decide) (by decide)⟩

/-- C6: absent, corrupt or out-of-range EXIF orientation metadata is a
silent non-fatal fallback: the resolved orientation is 1 when the tag
chain fails or when the read value lies outside [1,8]; applying
orientation 1 — or any out-of-range code — leaves the image unchanged;
and a processJPEGForDB run with no readable EXIF data behaves exactly like
one whose EXIF chain yields orientation 1, so the fallback itself never
produces an error. -/
theorem orientation_fallback_identity (env : ImageEnv) (srcBytes : List Nat)
    (maxW maxH : Int) (v o : Int) (img : Img)
    (hv : v < 1 ∨ 8 < v) (ho : o < 1 ∨ 8 < o)
    (hex : env.exifOrientation srcBytes = none) :
    resolveOrientation none = 1 ∧
    resolveOrientation (some v) = 1 ∧
    applyEXIFOrientation img 1 = img ∧
    applyEXIFOrientation img o = img ∧
    processJPEGForDB env srcBytes maxW maxH =
      processJPEGForDB { env with exifOrientation := fun _ => some 1 } srcBytes maxW maxH := by
  refine ⟨rfl, ?_, rfl, ?_, ?_⟩
  · show (if 1 ≤ v ∧ v ≤ 8 then v else 1) = 1
    rw [if_neg (by omega)]
  · unfold applyEXIFOrientation
    repeat rw [if_neg (by omega)]
  · unfold processJPEGForDB scaledOf orientedOf scaleImage
    rw [hex]
    simp [resolveOrientation]

/-- Witness for C6 with a concrete environment whose EXIF chain fails, the
out-of-range values 0 and 9, and the concrete test buffer. -/
theorem orientation_fallback_identity_witness :
    ((0 : Int) < 1 ∨ (8 : Int) < 0) ∧ ((9 : Int) < 1 ∨ (8 : Int) < 9) ∧
    pngEnv.exifOrientation [] = none ∧
    (resolveOrientation none = 1 ∧
      resolveOrientation (some 0) = 1 ∧
      applyEXIFOrientation testImg 1 = testImg ∧
      applyEXIFOrientation testImg 9 = testImg ∧
      processJPEGForDB pngEnv [] 512 512 =
        processJPEGForDB { pngEnv with exifOrientation := fun _ => some 1 } [] 512 512) :=
  ⟨Or.inl (by decide), Or.inr (by decide), rfl,
    orientation_fallback_identity pngEnv [] 512 512 0 9 testImg
      (Or.inl (by decide)) (Or.inr (by decide)) rfl⟩

/-- C4: when the sniffed format of an upload is not the photographic JPEG
class — including bytes with no recognizable header, where the sniffer
fails — adminAddHandler appends exactly the uploaded bytes to the people
table and redirects; no orientation, scaling or re-encoding touches the
stored bytes and the request never fails. -/
theorem adminAddHandler_passthrough (env : ImageEnv)
    (people : List (String × List Nat)) (name : String) (imgBytes : List Nat)
    (h : env.sniffFormat imgBytes = none ∨
      ∃ f, env.sniffFormat imgBytes = some f ∧ f ≠ jpegTag ∧ f ≠ jpgTag) :
    adminAddHandler env people name imgBytes =
      (people ++ [(name, imgBytes)], Response.redirectHome) := by
  rcases h with hn | ⟨f, hf, hj1, hj2⟩
  · unfold adminAddHandler
    rw [hn]
  · unfold adminAddHandler
    rw [hf]
    simp only [if_neg (by tauto : ¬(f = jpegTag ∨ f = jpgTag))]

/-- Witness for C4 with a concrete environment sniffing the png format. -/
theorem adminAddHandler_passthrough_witness :
    (pngEnv.sniffFormat [7, 8] = none ∨
      ∃ f, pngEnv.sniffFormat [7, 8] = some f ∧ f ≠ jpegTag ∧ f ≠ jpgTag) ∧
    adminAddHandler pngEnv somePeople "bea" [7, 8] =
      (somePeople ++ [("bea", [7, 8])], Response.redirectHome) :=
  ⟨Or.inr ⟨"png", rfl, by decide, by decide⟩,
    adminAddHandler_passthrough pngEnv somePeople "bea" [7, 8]
      (Or.inr ⟨"png", rfl, by decide, by decide⟩)⟩

/-- C5: when the full decode fails, or the JPEG encode of the scaled
buffer fails, processJPEGForDB returns an error and never a best-effort
byte sequence; adminAddHandler then answers that error with a 500 response
carrying it, and the people table is returned unchanged — the
un-normalized source bytes are not stored. -/
theorem processJPEGForDB_failure_rejected (env : ImageEnv)
    (people : List (String × List Nat)) (name : String) (imgBytes : List Nat)
    (hfmt : env.sniffFormat imgBytes = some jpegTag)
    (hfail : env.decode imgBytes = none ∨
      ∃ srcImg, env.decode imgBytes = some srcImg ∧
        env.encodeJPEG 80 (scaledOf env imgBytes srcImg 512 512) = none) :
    ∃ e, processJPEGForDB env imgBytes 512 512 = Except.error e ∧
      adminAddHandler env people name imgBytes = (people, Response.serverError e) := by
  have hproc : ∃ e, processJPEGForDB env imgBytes 512 512 = Except.error e := by
    rcases hfail with hd | ⟨srcImg, hd, he⟩
    · refine ⟨ProcErr.decodeFailed, ?_⟩
      simp only [processJPEGForDB, hd]
    · refine ⟨ProcErr.encodeFailed, ?_⟩
      simp only [processJPEGForDB, hd, he]
  rcases hproc with ⟨e, he⟩
  refine ⟨e, he, ?_⟩
  simp [adminAddHandler, hfmt, he]

/-- Witness for C5 with a concrete environment that sniffs jpeg but whose
full decode fails. -/
theorem processJPEGForDB_failure_rejected_witness :
    badDecodeEnv.sniffFormat [4, 2] = some jpegTag ∧
    (badDecodeEnv.decode [4, 2] = none ∨
      ∃ srcImg, badDecodeEnv.decode [4, 2] = some srcImg ∧
        badDecodeEnv.encodeJPEG 80 (scaledOf badDecodeEnv [4, 2] srcImg 512 512) = none) ∧
    ∃ e, processJPEGForDB badDecodeEnv [4, 2] 512 512 = Except.error e ∧
      adminAddHandler badDecodeEnv somePeople "cal" [4, 2] =
        (somePeople, Response.serverError e) :=
  ⟨rfl, Or.inl rfl,
    processJPEGForDB_failure_rejected badDecodeEnv somePeople "cal" [4, 2] rfl (Or.inl rfl)⟩

lemma fitWithin_3000_4000 : fitWithin 3000 4000 512 512 = (384, 512) := by
  unfold fitWithin scaleOf truncQ
  norm_num

/-- C8 counterexample: in the concrete orientation-6 scenario — a 4000 by
3000 source, EXIF orientation 6, a 512 by 512 box, and an encoder that
records the quality and the pixel dimensions it receives — the pipeline
encodes a 384 wide by 512 high buffer at quality 80, not a 512 wide by 384
high buffer as the claim states. -/
theorem processJPEGForDB_scenario_not_512x384 :
    processJPEGForDB scenarioEnv [] 512 512 = Except.ok [80, 384, 512] ∧
    processJPEGForDB scenarioEnv [] 512 512 ≠ Except.ok [80, 512, 384] := by
  have h1 : orientedOf scenarioEnv [] img4000x3000 = rotate90CW img4000x3000 := by
    unfold orientedOf scenarioEnv resolveOrientation applyEXIFOrientation
    norm_num
  have h2 : scaledOf scenarioEnv [] img4000x3000 512 512 =
      scaleImage scenarioEnv 384 512 (rotate90CW img4000x3000) := by
    unfold scaledOf
    rw [h1]
    have h3 : ((rotate90CW img4000x3000).w : Int) = 3000 := rfl
    have h4 : ((rotate90CW img4000x3000).h : Int) = 4000 := rfl
    rw [h3, h4, fitWithin_3000_4000]
  have h5 : processJPEGForDB scenarioEnv [] 512 512 = Except.ok [80, 384, 512] := by
    unfold processJPEGForDB
    show (match scenarioEnv.encodeJPEG 80 (scaledOf scenarioEnv [] img4000x3000 512 512) with
      | none => (Except.error ProcErr.encodeFailed : Except ProcErr (List Nat))
      | some out => Except.ok out) = Except.ok [80, 384, 512]
    rw [h2]
    rfl
  refine ⟨h5, ?_⟩
  rw [h5]
  simp

/-- C8 (amended): for any collaborators under which the source decodes to
a 4000 by 3000 buffer with EXIF orientation 6 and a 512 by 512 box, the
pipeline applies the 90° clockwise rotation to the source layout, scales
the rotated buffer to 384 wide by 512 high — not 512 by 384 — and returns
whatever the JPEG encoder produces at quality 80 for that buffer. -/
theorem processJPEGForDB_scenario_384x512 (env : ImageEnv) (srcBytes : List Nat)
    (srcImg : Img) (hdec : env.decode srcBytes = some srcImg)
    (hw : srcImg.w = 4000) (hh : srcImg.h = 3000)
    (hex : env.exifOrientation srcBytes = some 6) :
    (∀ out, env.encodeJPEG 80 (scaleImage env 384 512 (rotate90CW srcImg)) = some out →
      processJPEGForDB env srcBytes 512 512 = Except.ok out) ∧
    (scaleImage env 384 512 (rotate90CW srcImg)).w = 384 ∧
    (scaleImage env 384 512 (rotate90CW srcImg)).h = 512 ∧
    (rotate90CW srcImg).w = 3000 ∧ (rotate90CW srcImg).h = 4000 ∧
    (∀ x y, x < 3000 → y < 4000 →
      (rotate90CW srcImg).pix x y = srcImg.pix y (2999 - x)) := by
  have h1 : orientedOf env srcBytes srcImg = rotate90CW srcImg := by
    unfold orientedOf
    rw [hex]
    show applyEXIFOrientation srcImg (if 1 ≤ (6 : Int) ∧ (6 : Int) ≤ 8 then 6 else 1) =
      rotate90CW srcImg
    norm_num
    unfold applyEXIFOrientation
    norm_num
  have h2 : scaledOf env srcBytes srcImg 512 512 =
      scaleImage env 384 512 (rotate90CW srcImg) := by
    unfold scaledOf
    rw [h1]
    have h3 : ((rotate90CW srcImg).w : Int) = 3000 := by
      show ((srcImg.h : Nat) : Int) = 3000
      rw [hh]
      rfl
    have h4 : ((rotate90CW srcImg).h : Int) = 4000 := by
      show ((srcImg.w : Nat) : Int) = 4000
      rw [hw]
      rfl
    rw [h3, h4, fitWithin_3000_4000]
  refine ⟨?_, rfl, rfl, ?_, ?_, ?_⟩
  · intro out hout
    simp only [processJPEGForDB, hdec, h2, hout]
  · show srcImg.h = 3000
    exact hh
  · show srcImg.w = 4000
    exact hw
  · intro x y hx hy
    show srcImg.pix y (srcImg.h - 1 - x) = srcImg.pix y (2999 - x)
    rw [hh]

/-- Witness for C8 (amended) with the concrete scenario environment. -/
theorem processJPEGForDB_scenario_384x512_witness :
    scenarioEnv.decode [] = some img4000x3000 ∧
    img4000x3000.w = 4000 ∧ img4000x3000.h = 3000 ∧
    scenarioEnv.exifOrientation [] = some 6 ∧
    scenarioEnv.encodeJPEG 80 (scaleImage scenarioEnv 384 512 (rotate90CW img4000x3000)) =
      some [80, 384, 512] ∧
    processJPEGForDB scenarioEnv [] 512 512 = Except.ok [80, 384, 512] :=
  ⟨rfl, rfl, rfl, rfl, rfl,
    (processJPEGForDB_scenario_384x512 scenarioEnv [] img4000x3000 rfl rfl rfl rfl).1
      [80, 384, 512] rfl⟩
